import Mathlib

/-!
Shallow embedding of the YouTube scraper pipeline
(`youtube_3_thread.py`) and of the keyword scorer
(`keyword_context_tagging.py`), together with proofs settling the
specification claims about them.

Python dictionaries are modelled as association lists over a `Value`
type covering the JSON-ish values the scripts move around; machine
integers do not overflow here (Python ints are unbounded), so `Int`
is used directly.  External collaborators (the YouTube API, psycopg2)
are modelled by their observable responses, passed in as parameters.
-/

set_option autoImplicit false

namespace Scraper

/-- A Python value as it flows through the scraper: strings, ints,
booleans and `None`. -/
inductive Value where
  | vs (s : String)
  | vi (n : Int)
  | vb (b : Bool)
  | vnull
deriving DecidableEq, Repr

/-- Python truthiness of a `Value` (`if not x` tests): `None`, `""`,
`0` and `False` are falsy. -/
def Value.truthy : Value → Bool
  | .vs s => !(s = "")
  | .vi n => !(n = 0)
  | .vb b => b
  | .vnull => false

/-- A Python dict, modelled as an association list.  Lookups take the
first matching key, so operations that override a key prepend. -/
abbrev Dict := List (String × Value)

/-- `d[k]` / `d.get(k)`: first value bound to `k`, if any. -/
def dictGet : Dict → String → Option Value
  | [], _ => none
  | (k', v) :: rest, k => if k' = k then some v else dictGet rest k

/-- `d.get(k, default)`. -/
def dictGetD (d : Dict) (k : String) (dflt : Value) : Value :=
  (dictGet d k).getD dflt

/-- `{**a, **b}` — keys of `b` override keys of `a`.  Since `dictGet`
takes the first match, the overriding dict goes first. -/
def dictMerge (a b : Dict) : Dict := b ++ a

/-- `d.update(u)` — keys of `u` override keys of `d`. -/
def dictUpdate (d u : Dict) : Dict := u ++ d

/-- `d[k] = v`. -/
def dictSet (d : Dict) (k : String) (v : Value) : Dict := (k, v) :: d

/-- An optional string field as a Python value (`None` when absent). -/
def optVal : Option String → Value
  | none => .vnull
  | some s => .vs s

/-- The channel snapshot returned by `get_channel_info` (its 13 keys,
in source order). -/
structure ChannelInfo where
  channel_id : String
  channel_handle : String
  channel_title : String
  channel_description : String
  subscriber_count : Int
  video_count : Int
  view_count : Int
  uploads_playlist_id : Option String
  country : String
  published_at : Option String
  topic_categories : String
  made_for_kids : Bool
  privacy_status : String
deriving DecidableEq, Repr

/-- The dict literal built at the end of `get_channel_info`. -/
def channelInfoDict (c : ChannelInfo) : Dict :=
  [("channel_id", .vs c.channel_id),
   ("channel_handle", .vs c.channel_handle),
   ("channel_title", .vs c.channel_title),
   ("channel_description", .vs c.channel_description),
   ("subscriber_count", .vi c.subscriber_count),
   ("video_count", .vi c.video_count),
   ("view_count", .vi c.view_count),
   ("uploads_playlist_id", optVal c.uploads_playlist_id),
   ("country", .vs c.country),
   ("published_at", optVal c.published_at),
   ("topic_categories", .vs c.topic_categories),
   ("made_for_kids", .vb c.made_for_kids),
   ("privacy_status", .vs c.privacy_status)]

/-- One element of the list built by `get_channel_videos` (6 keys). -/
structure Video where
  video_id : String
  title : String
  description : String
  video_published : String
  video_url : String
  channel_title_video : String
deriving DecidableEq, Repr

/-- The dict literal appended for each playlist item in
`get_channel_videos`. -/
def videoDict (v : Video) : Dict :=
  [("video_id", .vs v.video_id),
   ("title", .vs v.title),
   ("description", .vs v.description),
   ("video_published", .vs v.video_published),
   ("video_url", .vs v.video_url),
   ("channel_title_video", .vs v.channel_title_video)]

/-- One entry of the mapping built by `get_video_statistics` (9 keys). -/
structure Stats where
  likes : Int
  comments : Int
  views : Int
  tags : String
  duration : String
  definition : String
  category_id : String
  license : String
  video_made_for_kids : Bool
deriving DecidableEq, Repr

/-- The dict stored under `stats[item.id]` in `get_video_statistics`. -/
def statsDict (s : Stats) : Dict :=
  [("likes", .vi s.likes),
   ("comments", .vi s.comments),
   ("views", .vi s.views),
   ("tags", .vs s.tags),
   ("duration", .vs s.duration),
   ("definition", .vs s.definition),
   ("category_id", .vs s.category_id),
   ("license", .vs s.license),
   ("video_made_for_kids", .vb s.video_made_for_kids)]

/-- `video_stats` — the dict keyed by video id. -/
abbrev StatsMap := List (Value × Dict)

/-- `video_stats.get(key, default)`. -/
def statsLookup : StatsMap → Value → Option Dict
  | [], _ => none
  | (k', d) :: rest, k => if k' = k then some d else statsLookup rest k

/-- The per-video merge of `process_channel` (the body of the
`for video in videos` loop, source lines 398-404):
`record = {**channel_info, **video}` followed by
`record.update(video_stats.get(video['video_id'], {}))` and the two
explicit reassignments of `description` and `video_published`. -/
def mergeOne (channel_info : Dict) (video_stats : StatsMap) (video : Dict) : Dict :=
  let record := dictMerge channel_info video
  let stats := (statsLookup video_stats ((dictGet video "video_id").getD .vnull)).getD []
  let record := dictUpdate record stats
  let record := dictSet record "description" (dictGetD video "description" (.vs ""))
  dictSet record "video_published" (dictGetD video "video_published" .vnull)

/-- The whole combine loop: one record per listed video. -/
def mergeRecords (channel_info : Dict) (video_stats : StatsMap) (videos : List Dict) :
    List Dict :=
  videos.map (mergeOne channel_info video_stats)

/-- The column list of `save_data_batch` (28 insert columns, in
source order). -/
def insertColumns : List String :=
  ["channel_id", "channel_handle", "channel_title", "channel_description",
   "subscriber_count", "video_count", "view_count", "uploads_playlist_id",
   "country", "published_at", "topic_categories", "made_for_kids", "privacy_status",
   "video_id", "title", "description", "video_published", "video_url",
   "channel_title_video", "tags", "likes", "comments", "views", "duration",
   "definition", "category_id", "license", "video_made_for_kids"]

/-- `record.get(col, None)` — the value bound for one insert column. -/
def recGet (record : Dict) (col : String) : Value :=
  dictGetD record col .vnull

/-- One row of `recycle_bin.youtube_scraped_data`: the 28 insert
columns plus the `scraped_at` column (DEFAULT CURRENT_TIMESTAMP). -/
structure DbRow where
  channel_id : Value
  channel_handle : Value
  channel_title : Value
  channel_description : Value
  subscriber_count : Value
  video_count : Value
  view_count : Value
  uploads_playlist_id : Value
  country : Value
  published_at : Value
  topic_categories : Value
  made_for_kids : Value
  privacy_status : Value
  video_id : Value
  title : Value
  description : Value
  video_published : Value
  video_url : Value
  channel_title_video : Value
  tags : Value
  likes : Value
  comments : Value
  views : Value
  duration : Value
  definition : Value
  category_id : Value
  license : Value
  video_made_for_kids : Value
  scraped_at : Value
deriving DecidableEq, Repr

/-- The row tuple `tuple(record.get(col, None) for col in columns)`,
as an incoming insert payload (its `scraped_at` is filled in by the
database on insert, so it is `None` here). -/
def toDbRow (record : Dict) : DbRow where
  channel_id := recGet record "channel_id"
  channel_handle := recGet record "channel_handle"
  channel_title := recGet record "channel_title"
  channel_description := recGet record "channel_description"
  subscriber_count := recGet record "subscriber_count"
  video_count := recGet record "video_count"
  view_count := recGet record "view_count"
  uploads_playlist_id := recGet record "uploads_playlist_id"
  country := recGet record "country"
  published_at := recGet record "published_at"
  topic_categories := recGet record "topic_categories"
  made_for_kids := recGet record "made_for_kids"
  privacy_status := recGet record "privacy_status"
  video_id := recGet record "video_id"
  title := recGet record "title"
  description := recGet record "description"
  video_published := recGet record "video_published"
  video_url := recGet record "video_url"
  channel_title_video := recGet record "channel_title_video"
  tags := recGet record "tags"
  likes := recGet record "likes"
  comments := recGet record "comments"
  views := recGet record "views"
  duration := recGet record "duration"
  definition := recGet record "definition"
  category_id := recGet record "category_id"
  license := recGet record "license"
  video_made_for_kids := recGet record "video_made_for_kids"
  scraped_at := .vnull

/-- The composite primary key `(channel_id, video_id)`. -/
def rowKey (q : DbRow) : Value × Value := (q.channel_id, q.video_id)

/-- Whether `q` conflicts with incoming row `r` on the primary key. -/
def keyMatch (r q : DbRow) : Prop :=
  q.channel_id = r.channel_id ∧ q.video_id = r.video_id

instance (r q : DbRow) : Decidable (keyMatch r q) := by
  unfold keyMatch; infer_instance

/-- The `ON CONFLICT (channel_id, video_id) DO UPDATE SET` clause:
overwrite `channel_title`, `title`, `views`, `likes`, `comments` with
the `EXCLUDED` (incoming) values and stamp `scraped_at`; every other
column — the key columns included — is left untouched. -/
def updRow (now : Value) (r q : DbRow) : DbRow :=
  if keyMatch r q then
    { q with
      channel_title := r.channel_title
      title := r.title
      views := r.views
      likes := r.likes
      comments := r.comments
      scraped_at := now }
  else q

/-- Upsert of a single incoming row: update the conflicting stored
row if the key is present, otherwise insert the row (the database
fills `scraped_at` with the current timestamp). -/
def upsertRow (now : Value) (t : List DbRow) (r : DbRow) : List DbRow :=
  if t.any (fun q => decide (keyMatch r q)) then
    t.map (updRow now r)
  else
    t ++ [{ r with scraped_at := now }]

/-- The batched `INSERT ... ON CONFLICT ... DO UPDATE` of
`save_data_batch`, applied row by row within one transaction. -/
def upsertBatch (now : Value) (t : List DbRow) (rs : List DbRow) : List DbRow :=
  rs.foldl (upsertRow now) t

/-- An exception escaping into `process_channel`'s handlers:
a quota-exhaustion `HttpError`, any other `HttpError`, or a generic
exception. -/
inductive PyErr where
  | httpQuotaExceeded
  | httpOther
  | generic
deriving DecidableEq, Repr

/-- The `except` clauses of `process_channel` (source lines 411-419):
a quota-exhaustion `HttpError` makes the task report failure
(`return False`); every other exception is logged and the task still
reports success (`return True`). -/
def handleTaskError : PyErr → Bool
  | .httpQuotaExceeded => false
  | .httpOther => true
  | .generic => true

/-- A step that either returns a value or raises. -/
inductive StepRes (α : Type) where
  | ok (a : α)
  | exn (e : PyErr)
deriving DecidableEq, Repr

/-- Outcome of `save_data_batch`: the insert succeeds and commits;
or the insert raises inside `save_data_batch`, which logs, rolls the
transaction back and returns normally (the error is swallowed); or
opening the connection raises, which propagates to the caller. -/
inductive SaveRes where
  | ok
  | writeFail
  | connExn (e : PyErr)
deriving DecidableEq, Repr

/-- `get_channel_id_from_handle` (source lines 150-169): the search
call either returns a response — modelled by the channel ids of its
items, the first of which is returned (`None` for an empty
response) — or raises; *every* exception, a quota-exhaustion
`HttpError` included, is caught by the helper's own
`except Exception`, logged, and collapsed to `None`. -/
def get_channel_id_from_handle (searchResult : StepRes (List String)) :
    Option String :=
  match searchResult with
  | .ok items => items.head?
  | .exn _ => none

/-- The observable responses of the external collaborators for one
task: the result of credential acquisition, of handle resolution, of
the already-processed query, of the channel/videos/stats fetches, and
the outcome of the batch save.  The helper fetchers catch their own
exceptions and return sentinel values (`None`, `[]`), which is why
those fields are plain results; only the already-processed query and
the save can raise into `process_channel`. -/
structure TaskEnv where
  apiKey : Option String
  channelId : Option String
  processed : StepRes Bool
  channelInfo : Option Dict
  videos : List Dict
  videoStats : StatsMap
  save : SaveRes
deriving DecidableEq, Repr

/-- `process_channel(handle, i)`: returns the Python `True`/`False`
result together with the database table after the task (rows are
persisted only by a successfully committed `save_data_batch`).
Mirrors the source control flow at lines 360-419: no API key →
`False`; no channel id → `True`; already processed → `True`; no
channel info or falsy uploads playlist → `True`; no videos → `True`;
otherwise merge and save; exceptions go to `handleTaskError`. -/
def process_channel (env : TaskEnv) (now : Value) (table : List DbRow) :
    Bool × List DbRow :=
  match env.apiKey with
  | none => (false, table)
  | some _ =>
    match env.channelId with
    | none => (true, table)
    | some _ =>
      match env.processed with
      | .exn e => (handleTaskError e, table)
      | .ok true => (true, table)
      | .ok false =>
        match env.channelInfo with
        | none => (true, table)
        | some info =>
          if !(dictGetD info "uploads_playlist_id" .vnull).truthy then (true, table)
          else if env.videos.isEmpty then (true, table)
          else
            let records := mergeRecords info env.videoStats env.videos
            match env.save with
            | .ok => (true, upsertBatch now table (records.map toDbRow))
            | .writeFail => (true, table)
            | .connExn e => (handleTaskError e, table)

/-- The mutable state of `run`: the checkpoint file's
`processed_rows` and `last_handle`, and the database table. -/
structure RunState where
  checkpointRows : Nat
  lastHandle : String
  table : List DbRow
deriving DecidableEq, Repr

/-- The task loop of `run` (source lines 443-459): for each remaining
`(i, handle)`, call `process_channel`; on `True` save the checkpoint
`(i + 1, handle)` and continue, on `False` stop the whole run without
saving the checkpoint. -/
def runTasks (envs : Nat → TaskEnv) (now : Value) :
    List (Nat × String) → RunState → RunState
  | [], st => st
  | (i, h) :: rest, st =>
    let r := process_channel (envs i) now st.table
    if r.1 then runTasks envs now rest ⟨i + 1, h, r.2⟩
    else { st with table := r.2 }

/-- The remaining work list: indices `start_row .. total-1` paired
with their handles. -/
def tasksFrom (handles : List String) (startRow : Nat) : List (Nat × String) :=
  ((List.range handles.length).drop startRow).map fun i => (i, handles.getD i "")

/-- `run`, from the resume offset: the checkpoint file initially
holds `startRow` and the run's table starts empty. -/
def run (handles : List String) (envs : Nat → TaskEnv) (now : Value)
    (startRow : Nat) : RunState :=
  runTasks envs now (tasksFrom handles startRow) ⟨startRow, "", []⟩

/-! ### Credential pool (`get_next_api_key` / `get_working_api_key`)

`API_KEYS` is the ordered pool; `self.api_key_index` is the rotation
cursor; `test_api_key` is the externally observed usability of a key,
modelled as an oracle `test : String → Bool`. -/

/-- `get_next_api_key`: the key at `api_key_index % len(API_KEYS)`,
and the incremented cursor. -/
def get_next_api_key (keys : List String) (idx : Nat) : String × Nat :=
  (keys.getD (idx % keys.length) "", idx + 1)

/-- The `for attempt in range(len(API_KEYS))` loop of
`get_working_api_key`, with the remaining attempt count explicit. -/
def probeKeys (keys : List String) (test : String → Bool) :
    Nat → Nat → Option String
  | 0, _ => none
  | attempts + 1, idx =>
    let r := get_next_api_key keys idx
    if test r.1 then some r.1 else probeKeys keys test attempts r.2

/-- `get_working_api_key`: probe at most `len(API_KEYS)` candidates
round-robin from the current cursor; `None` when every probe fails. -/
def get_working_api_key (keys : List String) (test : String → Bool)
    (idx : Nat) : Option String :=
  probeKeys keys test keys.length idx

/-! ### Pagination (`get_channel_videos`)

The external `playlistItems().list` endpoint is modelled as a
function from the page token to a response: a page of items plus an
optional continuation token, or an exception.  The source loop is
`while True`, so the embedding carries explicit fuel; returning
`none` means the loop has not terminated within that much fuel. -/

/-- One response of the paginated listing endpoint. -/
inductive PageResp (τ α : Type) where
  | ok (items : List α) (nextPageToken : Option τ)
  | exn

/-- The `while True` loop body of `get_channel_videos` (source lines
213-241): fetch a page, append its items, stop when no continuation
token is returned; an exception breaks the loop, returning the items
collected so far. -/
def get_channel_videos_loop {τ α : Type} (fetch : Option τ → PageResp τ α) :
    Nat → List α → Option τ → Option (List α)
  | 0, _, _ => none
  | fuel + 1, acc, tok =>
    match fetch tok with
    | .exn => some acc
    | .ok items next =>
      match next with
      | none => some (acc ++ items)
      | some t => get_channel_videos_loop fetch fuel (acc ++ items) (some t)

/-- `get_channel_videos`: run the loop from an empty accumulator and
no page token. -/
def get_channel_videos {τ α : Type} (fetch : Option τ → PageResp τ α)
    (fuel : Nat) : Option (List α) :=
  get_channel_videos_loop fetch fuel [] none

/-- A well-behaved paginated source holding the given pages: page `i`
carries a continuation token exactly when a page `i + 1` exists.
The initial request (no token) serves page `0`. -/
def fetchOfPages {α : Type} (pages : List (List α)) : Option Nat → PageResp Nat α
  | none =>
    .ok (pages.getD 0 []) (if 1 < pages.length then some 1 else none)
  | some i =>
    .ok (pages.getD i []) (if i + 1 < pages.length then some (i + 1) else none)

/-- A buggy source that returns a continuation token on every page. -/
def alwaysTokenFetch {α : Type} : Option Nat → PageResp Nat α :=
  fun _ => .ok [] (some 0)

/-! ### Checkpoint file (`save_checkpoint` / `load_checkpoint`)

`save_checkpoint` opens the checkpoint file with mode `'w'` — which
truncates it in place — and then writes the JSON serialization.  The
on-disk content is modelled as `Option String` (`none` = file
absent), and an interrupted save as stopping after `progress` units:
`0` = before the open, `1` = after the truncating open, `1 + k` =
after `k` characters of the serialization have been written. -/

/-- The first `n` characters of a string. -/
def strTake (s : String) (n : Nat) : String := String.mk (s.data.take n)

/-- `json.dump({"processed_rows": ..., "last_handle": ...,
"timestamp": ...}, f, indent=2, ensure_ascii=False)` — the serialized
checkpoint, for field strings needing no JSON escaping. -/
def checkpointJson (rows : Nat) (lastHandle ts : String) : String :=
  "\x7b\n  \"processed_rows\": " ++ toString rows ++
  ",\n  \"last_handle\": \"" ++ lastHandle ++
  "\",\n  \"timestamp\": \"" ++ ts ++ "\"\n\x7d"

/-- The on-disk checkpoint content when `save_checkpoint` is
interrupted after `progress` units of work. -/
def saveCheckpointDisk (old : Option String) (ser : String)
    (progress : Nat) : Option String :=
  if progress = 0 then old else some (strTake ser (progress - 1))

end Scraper

namespace Tagging

/-!
Embedding of `calculate_tag_score` from `keyword_context_tagging.py`.
Texts and keywords are lists of characters; `term in text` is
substring containment; the abbreviation test embeds the regex
`\b<literal>\b` (word-boundary on both sides, `\w` = alphanumeric or
underscore, ASCII inputs assumed). -/

/-- Whether `needle` occurs at the very start of `hay`. -/
def leadsList : List Char → List Char → Bool
  | [], _ => true
  | _ :: _, [] => false
  | a :: as, b :: bs => a == b && leadsList as bs

/-- Python `needle in hay` for strings: substring containment. -/
def hasSub : List Char → List Char → Bool
  | hay, needle =>
    match hay with
    | [] => leadsList needle []
    | _ :: cs => leadsList needle hay || hasSub cs needle

/-- Python's `\w`: alphanumeric or underscore (ASCII). -/
def isWordChar (c : Char) : Bool := c.isAlphanum || c == '_'

/-- A regex `\b` boundary between an optional left character and an
optional right character (out-of-string counts as non-word): exactly
one side is a word character. -/
def boundaryOk (left right : Option Char) : Bool :=
  (match left with | none => false | some c => isWordChar c) !=
  (match right with | none => false | some c => isWordChar c)

/-- Whether `\b needle \b` matches at the current position of `hay`,
given the character just before that position. -/
def boundMatchHere (prev : Option Char) (needle hay : List Char) : Bool :=
  leadsList needle hay
  && boundaryOk prev needle.head?
  && boundaryOk needle.getLast? (hay.drop needle.length).head?

/-- Scan `hay` for a `\b needle \b` match, tracking the previous
character. -/
def boundMatchAux (needle : List Char) : Option Char → List Char → Bool
  | prev, [] => boundMatchHere prev needle []
  | prev, c :: cs => boundMatchHere prev needle (c :: cs) || boundMatchAux needle (some c) cs

/-- `re.search(rf"\b{re.escape(abbr)}\b", text)` as a Boolean. -/
def reWordSearch (needle text : List Char) : Bool :=
  boundMatchAux needle none text

/-- `calculate_tag_score(text, generic_terms, specialised_terms,
abbreviations)`: the `(score, matched_keywords)` pair, following the
source (lines 83-129) clause by clause. -/
def calculate_tag_score (text : List Char)
    (generic_terms specialised_terms abbreviations : List (List Char)) :
    Nat × List (List Char) :=
  let text_lower := text.map Char.toLower
  let found_generic := generic_terms.any fun t => !t.isEmpty && hasSub text_lower t
  let matched_generic := generic_terms.filter fun t => !t.isEmpty && hasSub text_lower t
  let found_specialised := specialised_terms.any fun t => !t.isEmpty && hasSub text_lower t
  let matched_spec := specialised_terms.filter fun t => !t.isEmpty && hasSub text_lower t
  let found_abbreviation := abbreviations.any fun a => !a.isEmpty && reWordSearch a text
  let matched_abbr := abbreviations.filter fun a => !a.isEmpty && reWordSearch a text
  let matched_keywords :=
    (if found_generic then matched_generic else []) ++
    (if found_specialised then matched_spec else []) ++
    (if found_abbreviation then matched_abbr else [])
  let num_matched_generic := if found_generic then matched_generic.length else 0
  let score :=
    if found_generic && !(found_specialised || found_abbreviation) then
      if 3 ≤ num_matched_generic then 4 else 1
    else if (found_generic && (found_specialised || found_abbreviation))
         || (found_specialised && !found_generic && !found_abbreviation) then 2
    else if found_abbreviation && !found_generic && !found_specialised then 3
    else 0
  (score, matched_keywords)

/-- `found_generic` for a text, as computed inside the scorer. -/
def foundGeneric (text : List Char) (terms : List (List Char)) : Bool :=
  terms.any fun t => !t.isEmpty && hasSub (text.map Char.toLower) t

/-- `found_specialised`, as computed inside the scorer. -/
def foundSpecialised (text : List Char) (terms : List (List Char)) : Bool :=
  terms.any fun t => !t.isEmpty && hasSub (text.map Char.toLower) t

/-- `found_abbreviation`, as computed inside the scorer. -/
def foundAbbreviation (text : List Char) (abbrs : List (List Char)) : Bool :=
  abbrs.any fun a => !a.isEmpty && reWordSearch a text

end Tagging

open Scraper Tagging

/-! ## Helper lemmas -/

namespace Scraper

/-- A successful probe returns a key that tested usable and belongs
to the pool. -/
theorem probeKeys_sound (keys : List String) (test : String → Bool) :
    ∀ n idx k, probeKeys keys test n idx = some k →
      test k = true ∧ (keys ≠ [] → k ∈ keys) := by
  intro n
  induction n with
  | zero => intro idx k h; simp [probeKeys] at h
  | succ m ih =>
    intro idx k h
    rw [probeKeys] at h
    by_cases ht : test (get_next_api_key keys idx).1 = true
    · rw [if_pos ht] at h
      obtain rfl : (get_next_api_key keys idx).1 = k := by
        exact Option.some.inj h
      refine ⟨ht, fun hne => ?_⟩
      have hlen : 0 < keys.length := List.length_pos.mpr hne
      have hlt : idx % keys.length < keys.length := Nat.mod_lt _ hlen
      have hk : (get_next_api_key keys idx).1 = keys[idx % keys.length] :=
        List.getD_eq_getElem _ _ hlt
      rw [hk]
      exact List.getElem_mem hlt
    · rw [if_neg ht] at h
      exact ih _ k h

/-- A failed probe of `n` candidates tested the `n` consecutive
round-robin positions and found them all unusable. -/
theorem probeKeys_none (keys : List String) (test : String → Bool) :
    ∀ n idx, probeKeys keys test n idx = none →
      ∀ j < n, test (keys.getD ((idx + j) % keys.length) "") = false := by
  intro n
  induction n with
  | zero => intro idx _ j hj; omega
  | succ m ih =>
    intro idx h j hj
    rw [probeKeys] at h
    by_cases ht : test (get_next_api_key keys idx).1 = true
    · rw [if_pos ht] at h; exact absurd h (by simp)
    · rw [if_neg ht] at h
      match j with
      | 0 =>
        simpa [get_next_api_key] using Bool.eq_false_iff.mpr ht
      | j' + 1 =>
        have := ih (idx + 1) h j' (by omega)
        simpa [get_next_api_key, Nat.add_assoc, Nat.add_comm 1 j'] using this

/-- Credential acquisition fails exactly when every key in the pool
tests exhausted: the `len(API_KEYS)` round-robin probes cover every
position, so a `None` result means all keys failed the probe, and
conversely. -/
theorem get_working_api_key_none_iff (keys : List String)
    (test : String → Bool) (idx : Nat) (hne : keys ≠ []) :
    get_working_api_key keys test idx = none ↔ ∀ k ∈ keys, test k = false := by
  constructor
  · intro h k hk
    have hlen : 0 < keys.length := List.length_pos.mpr hne
    obtain ⟨i, hi, hgi⟩ := List.mem_iff_getElem.mp hk
    have hjlt : (i + keys.length - idx % keys.length) % keys.length <
        keys.length := Nat.mod_lt _ hlen
    have hcov := probeKeys_none keys test keys.length idx h _ hjlt
    have hmlt : idx % keys.length < keys.length := Nat.mod_lt _ hlen
    have harith : (idx + (i + keys.length - idx % keys.length) % keys.length) %
        keys.length = i := by
      rw [← Nat.mod_add_mod, Nat.add_mod_mod,
        Nat.add_sub_cancel' (by omega : idx % keys.length ≤ i + keys.length),
        Nat.add_mod_right]
      exact Nat.mod_eq_of_lt hi
    rw [harith, List.getD_eq_getElem _ _ hi, hgi] at hcov
    exact hcov
  · intro hall
    cases h : get_working_api_key keys test idx with
    | none => rfl
    | some k =>
      exfalso
      obtain ⟨ht, hm⟩ := probeKeys_sound keys test _ _ _ h
      rw [hall k (hm hne)] at ht
      exact absurd ht (by simp)

end Scraper

namespace Scraper

/-- String append acts as list append on the character data. -/
theorem strData_append (a b : String) : (a ++ b).data = a.data ++ b.data := by
  cases a; cases b; rfl

/-- Appending on the right preserves non-emptiness. -/
theorem strAppend_ne_nil (a b : String) (h : a.data ≠ []) : (a ++ b).data ≠ [] := by
  rw [strData_append]
  intro hh
  exact h (List.append_eq_nil.mp hh).1

/-- The serialized checkpoint is never the empty string. -/
theorem checkpointJson_ne_empty (rows : Nat) (lastHandle ts : String) :
    checkpointJson rows lastHandle ts ≠ "" := by
  rw [checkpointJson]
  intro heq
  have hd := congrArg String.data heq
  exact strAppend_ne_nil _ _ (strAppend_ne_nil _ _ (strAppend_ne_nil _ _
    (strAppend_ne_nil _ _ (strAppend_ne_nil _ _ (strAppend_ne_nil _ _
      (by decide)))))) hd

/-- The loop of `get_channel_videos` never stops against a source
that answers every request with a continuation token, whatever the
fuel: the `while True` loop has no iteration bound. -/
theorem get_channel_videos_loop_alwaysToken {α : Type} :
    ∀ (fuel : Nat) (acc : List α) (tok : Option Nat),
      get_channel_videos_loop alwaysTokenFetch fuel acc tok = none := by
  intro fuel
  induction fuel with
  | zero => intro acc tok; rfl
  | succ n ih =>
    intro acc tok
    rw [get_channel_videos_loop]
    dsimp [alwaysTokenFetch]
    exact ih (acc ++ []) (some 0)

/-- Invariant of the pagination loop over a well-behaved finite
source: from page `i` with enough fuel, the loop returns the
accumulator followed by the concatenation of the remaining pages. -/
theorem get_channel_videos_loop_pages {α : Type} (pages : List (List α)) :
    ∀ (fuel i : Nat) (acc : List α), pages.length ≤ i + fuel → 0 < fuel →
      get_channel_videos_loop (fetchOfPages pages) fuel acc (some i) =
        some (acc ++ (pages.drop i).flatten) := by
  intro fuel
  induction fuel with
  | zero => intro i acc _ h2; omega
  | succ f ih =>
    intro i acc hle _
    rw [get_channel_videos_loop]
    dsimp [fetchOfPages]
    by_cases hlt : i + 1 < pages.length
    · rw [if_pos hlt]
      dsimp only
      rw [ih (i + 1) _ (by omega) (by omega)]
      have hi : i < pages.length := by omega
      rw [List.append_assoc]
      congr 2
      rw [List.drop_eq_getElem_cons hi]
      simp only [List.getElem?_eq_getElem hi, Option.getD_some, List.flatten_cons,
        List.getD_eq_getElem _ _ hi]
    · rw [if_neg hlt]
      dsimp only
      by_cases hi : i < pages.length
      · have hnil : pages.drop (i + 1) = [] := List.drop_eq_nil_of_le (by omega)
        rw [List.drop_eq_getElem_cons hi, List.getD_eq_getElem _ _ hi]
        simp [hnil]
      · have h1 : pages.getD i [] = [] := List.getD_eq_default _ _ (by omega)
        have h2 : pages.drop i = [] := List.drop_eq_nil_of_le (by omega)
        simp [h1, h2, List.getElem?_eq_none (by omega : pages.length ≤ i)]

/-- Path condition: the task reaches the `save_data_batch` call — a
key is acquired, the handle resolves, the channel is not already
processed, the channel info is present with a truthy uploads
playlist, and the video list is non-empty. -/
def ReachesSave (env : TaskEnv) : Prop :=
  env.apiKey ≠ none ∧ env.channelId ≠ none ∧ env.processed = .ok false ∧
  (∃ info, env.channelInfo = some info ∧
    (dictGetD info "uploads_playlist_id" .vnull).truthy = true) ∧
  env.videos ≠ []

/-- Under the path condition, `process_channel` reports success and
leaves the table unchanged whenever the batch write fails inside
`save_data_batch` (the exception is swallowed after the rollback). -/
theorem process_channel_writeFail (env : TaskEnv) (now : Value)
    (table : List DbRow) (hr : ReachesSave env) (hf : env.save = .writeFail) :
    process_channel env now table = (true, table) := by
  obtain ⟨hk, hc, hp, ⟨info, hinfo, hup⟩, hv⟩ := hr
  obtain ⟨k, hak⟩ := Option.ne_none_iff_exists'.mp hk
  obtain ⟨c, hac⟩ := Option.ne_none_iff_exists'.mp hc
  rw [process_channel, hak]
  dsimp only
  rw [hac]
  dsimp only
  rw [hp]
  dsimp only
  rw [hinfo]
  dsimp only
  rw [hup]
  have hve : env.videos.isEmpty = false := by
    cases hvs : env.videos with
    | nil => exact absurd hvs hv
    | cons a l => rfl
  rw [hve, hf]
  rfl

/-- When credential acquisition finds no usable key,
`process_channel` reports failure at once (source lines 362-364),
leaving the table unchanged. -/
theorem process_channel_noKey (env : TaskEnv) (now : Value)
    (table : List DbRow) (hk : env.apiKey = none) :
    process_channel env now table = (false, table) := by
  rw [process_channel, hk]

/-- A non-quota (transient) `HttpError` escaping the task body makes
`process_channel` report success, leaving the table unchanged. -/
theorem process_channel_transient (env : TaskEnv) (now : Value)
    (table : List DbRow) (key cid : String)
    (hk : env.apiKey = some key) (hc : env.channelId = some cid)
    (ht : env.processed = .exn .httpOther) :
    process_channel env now table = (true, table) := by
  rw [process_channel, hk]
  dsimp only
  rw [hc]
  dsimp only
  rw [ht]
  rfl

/-- A handle that resolves to nothing makes `process_channel` report
success with no data, leaving the table unchanged. -/
theorem process_channel_notFound (env : TaskEnv) (now : Value)
    (table : List DbRow) (key : String)
    (hk : env.apiKey = some key) (hc : env.channelId = none) :
    process_channel env now table = (true, table) := by
  rw [process_channel, hk]
  dsimp only
  rw [hc]

/-- One step of the task loop for a successfully reported task:
the checkpoint advances to `i + 1` and the run continues. -/
theorem runTasks_step_true (envs : Nat → TaskEnv) (now : Value) (i : Nat)
    (h : String) (rest : List (Nat × String)) (st : RunState)
    (table' : List DbRow)
    (hpc : process_channel (envs i) now st.table = (true, table')) :
    runTasks envs now ((i, h) :: rest) st = runTasks envs now rest ⟨i + 1, h, table'⟩ := by
  rw [runTasks, hpc]
  rfl

/-- One step of the task loop for a failed task: the run stops with
the checkpoint not saved. -/
theorem runTasks_step_false (envs : Nat → TaskEnv) (now : Value) (i : Nat)
    (h : String) (rest : List (Nat × String)) (st : RunState)
    (hpc : process_channel (envs i) now st.table = (false, st.table)) :
    runTasks envs now ((i, h) :: rest) st = st := by
  rw [runTasks, hpc]
  rfl

/-! ### Concrete scenario data for witnesses and counterexamples -/

/-- A sample channel snapshot with an uploads playlist. -/
def sampleChannel : ChannelInfo where
  channel_id := "UCa"
  channel_handle := "@a"
  channel_title := "Alpha"
  channel_description := "d"
  subscriber_count := 10
  video_count := 1
  view_count := 100
  uploads_playlist_id := some "UUa"
  country := "US"
  published_at := some "2020-01-01T00:00:00Z"
  topic_categories := ""
  made_for_kids := false
  privacy_status := "public"

/-- A sample listed video of `sampleChannel`. -/
def sampleVideo : Video where
  video_id := "va"
  title := "video a"
  description := "desc a"
  video_published := "2024-01-01T00:00:00Z"
  video_url := "https://www.youtube.com/watch?v=va"
  channel_title_video := "Alpha"

/-- A second channel snapshot. -/
def sampleChannelC : ChannelInfo :=
  { sampleChannel with
    channel_id := "UCc"
    channel_handle := "@c"
    channel_title := "Gamma"
    uploads_playlist_id := some "UUc" }

/-- A sample listed video of `sampleChannelC`. -/
def sampleVideoC : Video :=
  { sampleVideo with
    video_id := "vc"
    title := "video c"
    video_url := "https://www.youtube.com/watch?v=vc" }

/-- A task whose fetches all succeed and whose batch write commits. -/
def envSuccessA : TaskEnv where
  apiKey := some "key1"
  channelId := some "UCa"
  processed := .ok false
  channelInfo := some (channelInfoDict sampleChannel)
  videos := [videoDict sampleVideo]
  videoStats := [(.vs "va",
    statsDict ⟨3, 1, 9, "", "PT1M", "hd", "22", "youtube", false⟩)]
  save := .ok

/-- Like `envSuccessA` but for the second channel. -/
def envSuccessC : TaskEnv :=
  { envSuccessA with
    channelId := some "UCc"
    channelInfo := some (channelInfoDict sampleChannelC)
    videos := [videoDict sampleVideoC]
    videoStats := [] }

/-- A task that reaches the batch write, which then fails (and is
rolled back and swallowed inside `save_data_batch`). -/
def envWriteFail : TaskEnv := { envSuccessA with save := .writeFail }

/-- A task whose handle-resolution search call raises a
quota-exhaustion `HttpError`, which `get_channel_id_from_handle`
catches and collapses to `None`. -/
def envQuotaSwallowed : TaskEnv :=
  { envSuccessA with
    channelId := get_channel_id_from_handle (.exn .httpQuotaExceeded) }

/-- A task for which `get_working_api_key` found no usable key (every
credential probed exhausted). -/
def envNoKey : TaskEnv := { envSuccessA with apiKey := none }

/-- A task hit by a transient (non-quota) `HttpError` mid-task. -/
def envTransient : TaskEnv := { envSuccessA with processed := .exn .httpOther }

/-- A task whose handle resolves to no channel id. -/
def envNotFound : TaskEnv := { envSuccessA with channelId := none }

/-- World for the 3-handle scenario: handle `#1` succeeds, handle
`#2` resolves to not-found, handle `#3` succeeds. -/
def envsThreeHandles : Nat → TaskEnv := fun n =>
  if n = 0 then envSuccessA else if n = 1 then envNotFound else envSuccessC

end Scraper

namespace Scraper

/-- Unfolding of `mergeOne` on a listed video: the stats lookup uses
the video's id, and the two explicit reassignments take the video's
own description and publication date. -/
theorem mergeOne_eq (info : Dict) (stats : StatsMap) (v : Video) :
    mergeOne info stats (videoDict v) =
      dictSet (dictSet (dictUpdate (dictMerge info (videoDict v))
          ((statsLookup stats (.vs v.video_id)).getD []))
        "description" (.vs v.description))
        "video_published" (.vs v.video_published) := rfl

/-- When the stats mapping has no entry for the video, the merge
updates the record with the empty dict. -/
theorem mergeOne_missing_stats (info : Dict) (stats : StatsMap) (v : Video)
    (hmiss : statsLookup stats (.vs v.video_id) = none) :
    mergeOne info stats (videoDict v) =
      dictSet (dictSet (dictUpdate (dictMerge info (videoDict v)) [])
        "description" (.vs v.description))
        "video_published" (.vs v.video_published) := by
  rw [mergeOne_eq, hmiss]
  rfl

/-! ### Upsert algebra (for the idempotence claim) -/

/-- The conflict update leaves the row unchanged when the key does
not match. -/
theorem updRow_not (now : Value) (r q : DbRow) (h : ¬keyMatch r q) :
    updRow now r q = q := by
  unfold updRow
  exact if_neg h

/-- The conflict update never touches the key columns. -/
theorem updRow_channel_id (now : Value) (r q : DbRow) :
    (updRow now r q).channel_id = q.channel_id := by
  unfold updRow
  split <;> rfl

/-- The conflict update never touches the key columns. -/
theorem updRow_video_id (now : Value) (r q : DbRow) :
    (updRow now r q).video_id = q.video_id := by
  unfold updRow
  split <;> rfl

/-- Key conflicts are unaffected by conflict updates. -/
theorem keyMatch_updRow (now : Value) (r r' q : DbRow) :
    keyMatch r (updRow now r' q) ↔ keyMatch r q := by
  unfold keyMatch
  rw [updRow_channel_id, updRow_video_id]

/-- Applying the same conflict update twice is the same as once. -/
theorem updRow_idem (now : Value) (r q : DbRow) :
    updRow now r (updRow now r q) = updRow now r q := by
  by_cases hm : keyMatch r q
  · have h1 : updRow now r q =
        { q with
          channel_title := r.channel_title
          title := r.title
          views := r.views
          likes := r.likes
          comments := r.comments
          scraped_at := now } := by
      unfold updRow
      exact if_pos hm
    rw [h1]
    unfold updRow
    split
    · rfl
    · rename_i hcon
      exact absurd hm hcon
  · rw [updRow_not now r q hm, updRow_not now r q hm]

/-- Rows updated by a conflict update still conflict with the same
incoming rows. -/
theorem any_keyMatch_map_upd (now : Value) (r r' : DbRow) (t : List DbRow) :
    ((t.map (updRow now r')).any fun q => decide (keyMatch r q)) =
      (t.any fun q => decide (keyMatch r q)) := by
  induction t with
  | nil => rfl
  | cons q t ih =>
    simp only [List.map_cons, List.any_cons, ih]
    congr 1
    exact decide_eq_decide.mpr (keyMatch_updRow now r r' q)

/-- If no stored row conflicts with `r`, the conflict update for `r`
is the identity on the table. -/
theorem map_updRow_of_not_any (now : Value) (r : DbRow) (t : List DbRow)
    (hk : (t.any fun q => decide (keyMatch r q)) = false) :
    t.map (updRow now r) = t := by
  induction t with
  | nil => rfl
  | cons q t ih =>
    simp only [List.any_cons, Bool.or_eq_false_iff, decide_eq_false_iff_not] at hk
    simp only [List.map_cons, updRow_not now r q hk.1, ih hk.2]

/-- The freshly inserted row conflicts with its own incoming row. -/
theorem keyMatch_self_insert (now : Value) (r : DbRow) :
    keyMatch r ({ r with scraped_at := now } : DbRow) := ⟨rfl, rfl⟩

/-- A conflict update with a row's own values is the identity on the
freshly inserted copy of that row. -/
theorem updRow_self_insert (now : Value) (r : DbRow) :
    updRow now r ({ r with scraped_at := now } : DbRow) =
      { r with scraped_at := now } := by
  unfold updRow
  rw [if_pos (keyMatch_self_insert now r)]

/-- Upserting the same row twice is the same as once. -/
theorem upsertRow_idem (now : Value) (t : List DbRow) (r : DbRow) :
    upsertRow now (upsertRow now t r) r = upsertRow now t r := by
  by_cases hk : (t.any fun q => decide (keyMatch r q)) = true
  · have h1 : upsertRow now t r = t.map (updRow now r) := by
      unfold upsertRow
      exact if_pos hk
    rw [h1]
    unfold upsertRow
    rw [if_pos (by rw [any_keyMatch_map_upd]; exact hk), List.map_map]
    congr 1
    funext q
    exact updRow_idem now r q
  · have hk' : (t.any fun q => decide (keyMatch r q)) = false :=
      Bool.eq_false_iff.mpr hk
    have h1 : upsertRow now t r = t ++ [{ r with scraped_at := now }] := by
      unfold upsertRow
      exact if_neg hk
    rw [h1]
    unfold upsertRow
    rw [if_pos (by
      simp only [List.any_append, List.any_cons, List.any_nil,
        Bool.or_eq_true_iff]
      exact Or.inr (Or.inl (decide_eq_true (keyMatch_self_insert now r))))]
    rw [List.map_append, map_updRow_of_not_any now r t hk']
    simp only [List.map_cons, List.map_nil, updRow_self_insert]

/-- Two incoming rows with the same key pair conflict with exactly
the same stored rows; distinct key pairs never conflict with the same
stored row. -/
theorem not_both_match (r r' q : DbRow) (hne : rowKey r ≠ rowKey r') :
    ¬(keyMatch r q ∧ keyMatch r' q) := by
  rintro ⟨⟨h1, h2⟩, h3, h4⟩
  apply hne
  unfold rowKey
  rw [← h1, ← h2, h3, h4]

/-- Conflict updates for rows with distinct keys commute pointwise. -/
theorem updRow_comm_pt (now : Value) (r r' q : DbRow)
    (hne : rowKey r ≠ rowKey r') :
    updRow now r (updRow now r' q) = updRow now r' (updRow now r q) := by
  by_cases h1 : keyMatch r q <;> by_cases h2 : keyMatch r' q
  · exact absurd ⟨h1, h2⟩ (not_both_match r r' q hne)
  · rw [updRow_not now r' q h2,
      updRow_not now r' _ (fun hh => h2 ((keyMatch_updRow now r' r q).mp hh))]
  · rw [updRow_not now r q h1,
      updRow_not now r _ (fun hh => h1 ((keyMatch_updRow now r r' q).mp hh))]
  · rw [updRow_not now r' q h2, updRow_not now r q h1,
      updRow_not now r' q h2]

/-- A conflict that exists before an upsert of another row still
exists after it. -/
theorem any_keyMatch_upsertRow (now : Value) (r r' : DbRow) (t : List DbRow)
    (h : (t.any fun q => decide (keyMatch r q)) = true) :
    ((upsertRow now t r').any fun q => decide (keyMatch r q)) = true := by
  unfold upsertRow
  split
  · rw [any_keyMatch_map_upd]; exact h
  · simp only [List.any_append, h, Bool.true_or]

/-- After upserting `r`, a row conflicting with `r` is present. -/
theorem any_keyMatch_upsertRow_self (now : Value) (r : DbRow) (t : List DbRow) :
    ((upsertRow now t r).any fun q => decide (keyMatch r q)) = true := by
  unfold upsertRow
  split
  · rename_i h
    rw [any_keyMatch_map_upd]; exact h
  · simp only [List.any_append, List.any_cons, List.any_nil,
      Bool.or_eq_true_iff]
    exact Or.inr (Or.inl (decide_eq_true (keyMatch_self_insert now r)))

/-- A conflict that exists before a batch upsert still exists after
it. -/
theorem any_keyMatch_upsertBatch (now : Value) (r : DbRow) (rs t : List DbRow)
    (h : (t.any fun q => decide (keyMatch r q)) = true) :
    ((upsertBatch now t rs).any fun q => decide (keyMatch r q)) = true := by
  induction rs generalizing t with
  | nil => exact h
  | cons r' rs ih => exact ih _ (any_keyMatch_upsertRow now r r' t h)

/-- Upserts of rows with distinct keys commute, provided the first
row's key is already present (so both act by update, or the insert
positions cannot interfere). -/
theorem upsertRow_comm (now : Value) (r r' : DbRow) (t : List DbRow)
    (hne : rowKey r ≠ rowKey r')
    (hpres : (t.any fun q => decide (keyMatch r q)) = true) :
    upsertRow now (upsertRow now t r') r = upsertRow now (upsertRow now t r) r' := by
  have hrt : upsertRow now t r = t.map (updRow now r) := by
    unfold upsertRow
    exact if_pos hpres
  by_cases h2 : (t.any fun q => decide (keyMatch r' q)) = true
  · have hr't : upsertRow now t r' = t.map (updRow now r') := by
      unfold upsertRow
      exact if_pos h2
    rw [hrt, hr't]
    have hl : upsertRow now (t.map (updRow now r')) r =
        (t.map (updRow now r')).map (updRow now r) := by
      unfold upsertRow
      exact if_pos (by rw [any_keyMatch_map_upd]; exact hpres)
    have hr : upsertRow now (t.map (updRow now r)) r' =
        (t.map (updRow now r)).map (updRow now r') := by
      unfold upsertRow
      exact if_pos (by rw [any_keyMatch_map_upd]; exact h2)
    rw [hl, hr, List.map_map, List.map_map]
    congr 1
    funext q
    exact updRow_comm_pt now r r' q hne
  · have h2' : (t.any fun q => decide (keyMatch r' q)) = false :=
      Bool.eq_false_iff.mpr h2
    have hr't : upsertRow now t r' = t ++ [{ r' with scraped_at := now }] := by
      unfold upsertRow
      exact if_neg h2
    have hnomatch : ¬keyMatch r ({ r' with scraped_at := now } : DbRow) := by
      intro hm
      exact not_both_match r r' _ hne ⟨hm, keyMatch_self_insert now r'⟩
    have hl : upsertRow now (t ++ [{ r' with scraped_at := now }]) r =
        t.map (updRow now r) ++ [{ r' with scraped_at := now }] := by
      unfold upsertRow
      rw [if_pos (by simp only [List.any_append, hpres, Bool.true_or])]
      rw [List.map_append]
      simp only [List.map_cons, List.map_nil, updRow_not now r _ hnomatch]
    have hr : upsertRow now (t.map (updRow now r)) r' =
        t.map (updRow now r) ++ [{ r' with scraped_at := now }] := by
      unfold upsertRow
      rw [if_neg (by rw [any_keyMatch_map_upd]; exact h2)]
    rw [hrt, hr't, hl, hr]

/-- An upsert of a row whose key is absent from a batch commutes with
the whole batch upsert, provided the row's key is present in the
table. -/
theorem upsertRow_upsertBatch_comm (now : Value) (r : DbRow)
    (rs t : List DbRow) (hni : rowKey r ∉ rs.map rowKey)
    (hpres : (t.any fun q => decide (keyMatch r q)) = true) :
    upsertRow now (upsertBatch now t rs) r =
      upsertBatch now (upsertRow now t r) rs := by
  induction rs generalizing t with
  | nil => rfl
  | cons r' rs ih =>
    have hne : rowKey r ≠ rowKey r' := by
      intro he
      apply hni
      rw [List.map_cons, he]
      exact List.mem_cons_self _ _
    have hni' : rowKey r ∉ rs.map rowKey := by
      intro hm
      exact hni (by rw [List.map_cons]; exact List.mem_cons_of_mem _ hm)
    show upsertRow now (upsertBatch now (upsertRow now t r') rs) r =
      upsertBatch now (upsertRow now (upsertRow now t r) r') rs
    rw [ih (upsertRow now t r') hni' (any_keyMatch_upsertRow now r r' t hpres),
      upsertRow_comm now r r' t hne hpres]

/-- Re-running a batch upsert with the same records (distinct keys
within the batch) is the identity on the already-upserted table. -/
theorem upsertBatch_idem (now : Value) (rs t : List DbRow)
    (hnd : (rs.map rowKey).Nodup) :
    upsertBatch now (upsertBatch now t rs) rs = upsertBatch now t rs := by
  induction rs generalizing t with
  | nil => rfl
  | cons r rs ih =>
    rw [List.map_cons, List.nodup_cons] at hnd
    obtain ⟨hni, hnd'⟩ := hnd
    show upsertBatch now
        (upsertRow now (upsertBatch now (upsertRow now t r) rs) r) rs =
      upsertBatch now (upsertRow now t r) rs
    rw [upsertRow_upsertBatch_comm now r rs (upsertRow now t r) hni
        (any_keyMatch_upsertRow_self now r t),
      upsertRow_idem now t r]
    exact ih (upsertRow now t r) hnd'

/-- A sample incoming row: the merged record of `sampleVideo` with
its stats, shaped by `save_data_batch`. -/
def sampleRow : DbRow :=
  toDbRow (mergeOne (channelInfoDict sampleChannel)
    [(.vs "va", statsDict ⟨3, 1, 9, "", "PT1M", "hd", "22", "youtube", false⟩)]
    (videoDict sampleVideo))

end Scraper

/-! ## Claims -/

/-- **C9.** Credential acquisition (`get_working_api_key`) probes at
most `len(API_KEYS)` candidates before declaring none available: when
every key in the pool tests exhausted it returns `None` (instead of
looping forever), and when exactly one key tests usable it returns
that key, from any rotation cursor. -/
theorem c9_acquire_bounded_probe (keys : List String) (test : String → Bool)
    (idx : Nat) (target : String) (hne : keys ≠ []) :
    ((∀ k ∈ keys, test k = false) →
      get_working_api_key keys test idx = none) ∧
    (target ∈ keys → (∀ k ∈ keys, (test k = true ↔ k = target)) →
      get_working_api_key keys test idx = some target) := by
  constructor
  · intro hall
    cases h : get_working_api_key keys test idx with
    | none => rfl
    | some k =>
      exfalso
      obtain ⟨ht, hm⟩ := probeKeys_sound keys test _ _ _ h
      rw [hall k (hm hne)] at ht
      exact Bool.false_ne_true ht
  · intro hmem huniq
    cases h : get_working_api_key keys test idx with
    | some k =>
      obtain ⟨ht, hm⟩ := probeKeys_sound keys test _ _ _ h
      rw [(huniq k (hm hne)).mp ht]
    | none =>
      exfalso
      have hlen : 0 < keys.length := List.length_pos.mpr hne
      obtain ⟨i, hi, hgi⟩ := List.mem_iff_getElem.mp hmem
      set N := keys.length with hN
      set m := idx % N with hm
      have hmlt : m < N := Nat.mod_lt _ hlen
      have hjlt : (i + N - m) % N < N := Nat.mod_lt _ hlen
      have hcov := probeKeys_none keys test N idx h ((i + N - m) % N) hjlt
      have harith : (idx + (i + N - m) % N) % N = i := by
        rw [← Nat.mod_add_mod, ← hm, Nat.add_mod_mod,
          Nat.add_sub_cancel' (by omega : m ≤ i + N), Nat.add_mod_right]
        exact Nat.mod_eq_of_lt hi
      rw [harith, List.getD_eq_getElem _ _ hi, hgi] at hcov
      have : test target = true := (huniq target hmem).mpr rfl
      rw [this] at hcov
      exact absurd hcov (by simp)

/-- Witness for C9: a pool of three keys where only `"kB"` still
works is acquired from cursor 5; with every key exhausted the
acquisition returns `none`. -/
theorem c9_acquire_bounded_probe_witness :
    (get_working_api_key ["kA", "kB", "kC"] (fun k => k == "kB") 5 = some "kB") ∧
    (get_working_api_key ["kA", "kB", "kC"] (fun _ => false) 5 = none) := by
  constructor
  · exact (c9_acquire_bounded_probe ["kA", "kB", "kC"] (fun k => k == "kB") 5 "kB"
      (by decide)).2 (by decide) (by decide)
  · exact (c9_acquire_bounded_probe ["kA", "kB", "kC"] (fun _ => false) 5 "kB"
      (by decide)).1 (by decide)

/-- **C10.** The keyword scorer always returns a score in
`{0,1,2,3,4}`, and on any text where some specialised term and some
abbreviation match but no generic term matches, the score is `0`
even though the matched-keywords list is non-empty. -/
theorem c10_tag_score_range_and_mixed_zero (text : List Char)
    (g s a : List (List Char)) :
    (calculate_tag_score text g s a).1 ≤ 4 ∧
    (foundSpecialised text s = true → foundAbbreviation text a = true →
     foundGeneric text g = false →
     (calculate_tag_score text g s a).1 = 0 ∧
     (calculate_tag_score text g s a).2 ≠ []) := by
  constructor
  · unfold calculate_tag_score
    dsimp only
    split_ifs <;> omega
  · intro hs ha hg
    unfold foundSpecialised at hs
    unfold foundAbbreviation at ha
    unfold foundGeneric at hg
    unfold calculate_tag_score
    dsimp only
    rw [hs, ha, hg]
    refine ⟨by simp, ?_⟩
    intro hnil
    have hnil' : (∀ y ∈ s, ¬y = [] → hasSub (text.map Char.toLower) y = false) ∧
        (∀ y ∈ a, ¬y = [] → reWordSearch y text = false) := by
      simpa using hnil
    obtain ⟨x, hx, hpx⟩ := List.any_eq_true.mp hs
    rw [Bool.and_eq_true] at hpx
    have hxne : ¬x = [] := by
      intro hxeq; rw [hxeq] at hpx; simp at hpx
    have hfalse := hnil'.1 x hx hxne
    rw [hfalse] at hpx
    exact absurd hpx.2 (by simp)

/-- **C1 counterexample.** A task whose batch write fails is *not*
surfaced as a failure, and the checkpoint *is* advanced past it: with
`envWriteFail` (all fetches succeed, the insert inside
`save_data_batch` raises and is rolled back and swallowed),
`process_channel` still returns `True`, the run saves checkpoint `1`
and no rows are persisted — refuting both halves of the claim. -/
theorem c1_batch_write_failure_counterexample :
    runTasks (fun _ => envWriteFail) (.vs "now") [(0, "@a")] ⟨0, "", []⟩ =
      ⟨1, "@a", []⟩ ∧
    (process_channel envWriteFail (.vs "now") []).1 ≠ false := by
  exact ⟨rfl, by decide⟩

/-- **C1 (amended).** A failed batch write is rolled back as a unit
(no rows are persisted), but the failure is swallowed inside
`save_data_batch` rather than surfaced: `process_channel` reports
success and the checkpoint is advanced past the task, so the
checkpoint commit for index `i` can happen without the records of
task `i` having been written to the sink. -/
theorem c1_batch_write_failure_swallowed (envs : Nat → TaskEnv) (now : Value)
    (i : Nat) (h : String) (rest : List (Nat × String)) (st : RunState)
    (hr : ReachesSave (envs i)) (hf : (envs i).save = .writeFail) :
    process_channel (envs i) now st.table = (true, st.table) ∧
    runTasks envs now ((i, h) :: rest) st =
      runTasks envs now rest ⟨i + 1, h, st.table⟩ := by
  have hpc := process_channel_writeFail (envs i) now st.table hr hf
  exact ⟨hpc, runTasks_step_true envs now i h rest st st.table hpc⟩

/-- Witness for C1 (amended): the concrete failing-write task. -/
theorem c1_batch_write_failure_swallowed_witness :
    (ReachesSave envWriteFail ∧ envWriteFail.save = .writeFail) ∧
    (process_channel envWriteFail (.vs "now") ([] : List DbRow) = (true, []) ∧
     runTasks (fun _ => envWriteFail) (.vs "now") [(0, "@a")] ⟨0, "", []⟩ =
       runTasks (fun _ => envWriteFail) (.vs "now") [] ⟨1, "@a", []⟩) := by
  have hr : ReachesSave envWriteFail :=
    ⟨by decide, by decide, rfl, ⟨channelInfoDict sampleChannel, rfl, by decide⟩,
     by decide⟩
  exact ⟨⟨hr, rfl⟩,
    c1_batch_write_failure_swallowed (fun _ => envWriteFail) (.vs "now") 0 "@a"
      [] ⟨0, "", []⟩ hr rfl⟩

/-- **C2 counterexample.** On the reachable program a
quota-exhaustion error during a task is *swallowed*, not handled as
the claim describes: when the handle-resolution search call raises a
quota `HttpError`, `get_channel_id_from_handle` catches it and
returns `None`, so the task is recorded as complete with no data —
no credential is marked exhausted, the task is not retried with a
newly acquired credential, and the checkpoint *is* advanced past the
task (to `1` here), refuting "the checkpoint is not advanced past
that task". -/
theorem c2_quota_mid_task_counterexample :
    get_channel_id_from_handle (.exn .httpQuotaExceeded) = none ∧
    runTasks (fun _ => envQuotaSwallowed) (.vs "now") [(0, "@a")] ⟨0, "", []⟩ =
      ⟨1, "@a", []⟩ ∧
    (process_channel envQuotaSwallowed (.vs "now") []).1 ≠ false := by
  exact ⟨rfl, rfl, by decide⟩

/-- **C2 (amended).** The `except HttpError` quota branch of
`process_channel` (source lines 411-414) is unreachable — every API
helper catches its own exceptions — so on the reachable program:
(i) a quota-exhaustion error during a task's API calls is swallowed
inside the helper (`get_channel_id_from_handle` collapses it to
`None`), the task is recorded as complete and the checkpoint
advances past it, with no mid-task credential rotation or retry;
(ii) the only run-stopping path is credential acquisition at task
start returning no key, in which case `process_channel` returns
`False` and the run stops with the checkpoint not advanced past that
task; and (iii) acquisition returns no key exactly when every
credential in the pool probes exhausted. -/
theorem c2_quota_swallowed_run_stops_only_when_pool_empty
    (envs : Nat → TaskEnv) (now : Value) (i : Nat) (h : String)
    (rest : List (Nat × String)) (st : RunState) :
    (∀ (key : String) (e : PyErr), (envs i).apiKey = some key →
      (envs i).channelId = get_channel_id_from_handle (.exn e) →
      process_channel (envs i) now st.table = (true, st.table) ∧
      runTasks envs now ((i, h) :: rest) st =
        runTasks envs now rest ⟨i + 1, h, st.table⟩) ∧
    ((envs i).apiKey = none →
      process_channel (envs i) now st.table = (false, st.table) ∧
      runTasks envs now ((i, h) :: rest) st = st) ∧
    (∀ (keys : List String) (test : String → Bool) (idx : Nat), keys ≠ [] →
      (get_working_api_key keys test idx = none ↔ ∀ k ∈ keys, test k = false)) := by
  refine ⟨?_, ?_, ?_⟩
  · intro key e hk hc
    have hcn : (envs i).channelId = none := hc
    have hpc := process_channel_notFound (envs i) now st.table key hk hcn
    exact ⟨hpc, runTasks_step_true envs now i h rest st st.table hpc⟩
  · intro hk
    have hpc := process_channel_noKey (envs i) now st.table hk
    exact ⟨hpc, runTasks_step_false envs now i h rest st hpc⟩
  · intro keys test idx hne
    exact get_working_api_key_none_iff keys test idx hne

/-- Witness for C2 (amended): a task whose handle-resolution call
raises a quota `HttpError` (swallowed, checkpoint advances), a task
with no usable credential (run stops, checkpoint kept), and a
two-key pool that is entirely exhausted (acquisition yields
`none`). -/
theorem c2_quota_swallowed_run_stops_only_when_pool_empty_witness :
    (envQuotaSwallowed.apiKey = some "key1" ∧
     envQuotaSwallowed.channelId =
       get_channel_id_from_handle (.exn .httpQuotaExceeded) ∧
     envNoKey.apiKey = none ∧ (["kA", "kB"] : List String) ≠ []) ∧
    (process_channel envQuotaSwallowed (.vs "now") ([] : List DbRow) =
       (true, []) ∧
     runTasks (fun _ => envQuotaSwallowed) (.vs "now") [(0, "@a")] ⟨0, "", []⟩ =
       runTasks (fun _ => envQuotaSwallowed) (.vs "now") [] ⟨1, "@a", []⟩) ∧
    (process_channel envNoKey (.vs "now") ([] : List DbRow) = (false, []) ∧
     runTasks (fun _ => envNoKey) (.vs "now") [(0, "@a")] ⟨0, "", []⟩ =
       ⟨0, "", []⟩) ∧
    get_working_api_key ["kA", "kB"] (fun _ => false) 0 = none := by
  refine ⟨⟨rfl, rfl, rfl, by decide⟩, ?_, ?_, ?_⟩
  · exact (c2_quota_swallowed_run_stops_only_when_pool_empty
      (fun _ => envQuotaSwallowed) (.vs "now") 0 "@a" [] ⟨0, "", []⟩).1
      "key1" .httpQuotaExceeded rfl rfl
  · exact (c2_quota_swallowed_run_stops_only_when_pool_empty
      (fun _ => envNoKey) (.vs "now") 0 "@a" [] ⟨0, "", []⟩).2.1 rfl
  · exact ((c2_quota_swallowed_run_stops_only_when_pool_empty
      (fun _ => envNoKey) (.vs "now") 0 "@a" [] ⟨0, "", []⟩).2.2
      ["kA", "kB"] (fun _ => false) 0 (by decide)).mpr (by decide)

/-- **C3 counterexample.** A task hit by a transient (non-quota)
`HttpError` is *not* retried: the code performs exactly one attempt
(there is no retry loop and no backoff constant in use), immediately
marks the task as skipped (`True`) and advances the checkpoint — so
"retried with a backoff delay up to a bounded maximum retry count
(e.g. 3)" and "only after exhausting those retries is the task
marked failed-and-skipped" are false. -/
theorem c3_transient_retry_counterexample :
    runTasks (fun _ => envTransient) (.vs "now") [(0, "@a")] ⟨0, "", []⟩ =
      ⟨1, "@a", []⟩ ∧
    (process_channel envTransient (.vs "now") []).1 = true := by
  exact ⟨rfl, rfl⟩

/-- **C3 (amended).** A transient error is never retried: on a
non-quota `HttpError` escaping the task body, `process_channel`
immediately reports the task as skipped (`True`), no records are
persisted for it, and the checkpoint still advances past it. -/
theorem c3_transient_skipped_without_retry (envs : Nat → TaskEnv) (now : Value)
    (i : Nat) (h : String) (rest : List (Nat × String)) (st : RunState)
    (key cid : String) (hk : (envs i).apiKey = some key)
    (hc : (envs i).channelId = some cid)
    (ht : (envs i).processed = .exn .httpOther) :
    process_channel (envs i) now st.table = (true, st.table) ∧
    runTasks envs now ((i, h) :: rest) st =
      runTasks envs now rest ⟨i + 1, h, st.table⟩ := by
  have hpc := process_channel_transient (envs i) now st.table key cid hk hc ht
  exact ⟨hpc, runTasks_step_true envs now i h rest st st.table hpc⟩

/-- Witness for C3 (amended): the concrete transient-error task. -/
theorem c3_transient_skipped_without_retry_witness :
    (envTransient.apiKey = some "key1" ∧ envTransient.channelId = some "UCa" ∧
     envTransient.processed = .exn .httpOther) ∧
    (process_channel envTransient (.vs "now") ([] : List DbRow) = (true, []) ∧
     runTasks (fun _ => envTransient) (.vs "now") [(0, "@a")] ⟨0, "", []⟩ =
       runTasks (fun _ => envTransient) (.vs "now") [] ⟨1, "@a", []⟩) := by
  exact ⟨⟨rfl, rfl, rfl⟩,
    c3_transient_skipped_without_retry (fun _ => envTransient) (.vs "now") 0
      "@a" [] ⟨0, "", []⟩ "key1" "UCa" rfl rfl rfl⟩

/-- **C8.** A task whose handle resolves to not-found completes with
no data: `process_channel` returns `True`, persists nothing, the task
is not treated as a failure, the checkpoint advances past it and the
run continues with the remaining tasks. -/
theorem c8_not_found_advances_checkpoint (envs : Nat → TaskEnv) (now : Value)
    (i : Nat) (h : String) (rest : List (Nat × String)) (st : RunState)
    (key : String) (hk : (envs i).apiKey = some key)
    (hc : (envs i).channelId = none) :
    process_channel (envs i) now st.table = (true, st.table) ∧
    runTasks envs now ((i, h) :: rest) st =
      runTasks envs now rest ⟨i + 1, h, st.table⟩ := by
  have hpc := process_channel_notFound (envs i) now st.table key hk hc
  exact ⟨hpc, runTasks_step_true envs now i h rest st st.table hpc⟩

/-- Witness for C8: the 3-handle scenario — handle `#2` resolves to
not-found; the final checkpoint is `3` and rows exist exactly for the
channels of handles `#1` and `#3`. -/
theorem c8_not_found_advances_checkpoint_witness :
    ((envsThreeHandles 1).apiKey = some "key1" ∧
     (envsThreeHandles 1).channelId = none) ∧
    (process_channel (envsThreeHandles 1) (.vs "now") ([] : List DbRow) =
       (true, []) ∧
     runTasks envsThreeHandles (.vs "now") [(1, "@b"), (2, "@c")] ⟨1, "@a", []⟩ =
       runTasks envsThreeHandles (.vs "now") [(2, "@c")] ⟨2, "@b", []⟩) ∧
    ((run ["@a", "@b", "@c"] envsThreeHandles (.vs "now") 0).checkpointRows = 3 ∧
     (run ["@a", "@b", "@c"] envsThreeHandles (.vs "now") 0).table.map
        DbRow.channel_id = [.vs "UCa", .vs "UCc"]) := by
  refine ⟨⟨rfl, rfl⟩, ?_, rfl, rfl⟩
  exact c8_not_found_advances_checkpoint envsThreeHandles (.vs "now") 1 "@b"
    [(2, "@c")] ⟨1, "@a", []⟩ "key1" rfl rfl

/-- **C4 counterexample.** The checkpoint commit is not
all-or-nothing: `save_checkpoint` opens the file with mode `'w'`,
which truncates it in place, so interrupting the save right after the
open (progress `1`) leaves an empty file — neither the old checkpoint
(here the one for 5 rows) nor the new serialization (for 6 rows), and
unreadable as a checkpoint (`json.load` of an empty file fails, which
`load_checkpoint` turns into `processed_rows = 0`). -/
theorem c4_checkpoint_commit_atomic_counterexample :
    saveCheckpointDisk (some (checkpointJson 5 "@alpha" "2026-01-01T00:00:00"))
        (checkpointJson 6 "@beta" "2026-01-02T00:00:00") 1 = some "" ∧
    some "" ≠ some (checkpointJson 5 "@alpha" "2026-01-01T00:00:00") ∧
    ("" : String) ≠ checkpointJson 6 "@beta" "2026-01-02T00:00:00" := by
  refine ⟨by simp [saveCheckpointDisk, strTake], by decide, by decide⟩

/-- **C4 (amended).** `save_checkpoint` writes the checkpoint file in
place (truncate-then-write), not atomically: an uninterrupted save
leaves exactly the new serialization, but the state right after the
truncating open is the empty file, which is never a valid serialized
checkpoint — so an interrupted commit can leave an unreadable,
half-written checkpoint file (`load_checkpoint` then falls back to
`processed_rows = 0`). -/
theorem c4_checkpoint_commit_in_place :
    (∀ (old : Option String) (ser : String),
       saveCheckpointDisk old ser (ser.data.length + 1) = some ser) ∧
    (∀ (old : Option String) (ser : String),
       saveCheckpointDisk old ser 1 = some "") ∧
    (∀ (rows : Nat) (lastHandle ts : String),
       checkpointJson rows lastHandle ts ≠ "") := by
  refine ⟨fun old ser => ?_, fun old ser => ?_, checkpointJson_ne_empty⟩
  · cases ser with
    | mk data => simp [saveCheckpointDisk, strTake]
  · simp [saveCheckpointDisk, strTake]

/-- **C5 counterexample.** The pagination loop of
`get_channel_videos` does not bound its iterations: against a buggy
source that returns a continuation token on every response, the loop
never terminates — for any amount of fuel (here a million steps) the
embedded loop has still not finished. -/
theorem c5_pagination_bound_counterexample :
    get_channel_videos (alwaysTokenFetch (α := Nat)) 1000000 = none ∧
    alwaysTokenFetch (α := Nat) (some 0) = .ok [] (some 0) :=
  ⟨get_channel_videos_loop_alwaysToken 1000000 [] none, rfl⟩

/-- **C5 (amended).** Against a well-behaved source whose last page
carries no continuation token, `get_channel_videos` terminates on
that page (fuel `= number of pages` suffices) and returns exactly the
concatenation of the items of all pages, in order — duplicate-free
whenever the pages as a whole are.  The defensive iteration bound
required by the claim does not exist (see the counterexample). -/
theorem c5_pagination_terminates_on_finite_source {α : Type}
    (pages : List (List α)) (fuel : Nat)
    (h1 : pages.length ≤ fuel) (h2 : 0 < fuel) :
    get_channel_videos (fetchOfPages pages) fuel = some pages.flatten ∧
    (∀ l, get_channel_videos (fetchOfPages pages) fuel = some l →
      pages.flatten.Nodup → l.Nodup) := by
  have hmain : get_channel_videos (fetchOfPages pages) fuel = some pages.flatten := by
    obtain ⟨f, rfl⟩ : ∃ f, fuel = f + 1 := ⟨fuel - 1, by omega⟩
    rw [get_channel_videos, get_channel_videos_loop]
    dsimp [fetchOfPages]
    by_cases hlt : 1 < pages.length
    · rw [if_pos hlt]
      dsimp only
      rw [get_channel_videos_loop_pages pages f 1 _ (by omega) (by omega)]
      cases pages with
      | nil => simp at hlt
      | cons p ps => simp
    · rw [if_neg hlt]
      dsimp only
      match pages with
      | [] => simp
      | p :: ps =>
        have : ps = [] := by
          simp only [List.length_cons] at hlt
          exact List.eq_nil_of_length_eq_zero (by omega)
        subst this
        simp
  refine ⟨hmain, fun l hl hnd => ?_⟩
  rw [hmain] at hl
  exact Option.some.inj hl ▸ hnd

/-- Witness for C5 (amended): a two-page source with items
`[10, 20]` then `[30]` yields `[10, 20, 30]` with fuel 2. -/
theorem c5_pagination_terminates_on_finite_source_witness :
    ([[10, 20], [30]] : List (List Nat)).length ≤ 2 ∧ 0 < 2 ∧
    get_channel_videos (fetchOfPages ([[10, 20], [30]] : List (List Nat))) 2 =
      some [10, 20, 30] := by
  refine ⟨by decide, by decide, ?_⟩
  rw [(c5_pagination_terminates_on_finite_source
    ([[10, 20], [30]] : List (List Nat)) 2 (by decide) (by decide)).1]
  decide

/-- **C6 counterexample.** An item present in the listing but absent
from the stats mapping is kept, but its stats fields are *not*
defaulted to zero/empty: the merged record simply lacks the stats
keys, so `save_data_batch`'s `record.get(col, None)` binds them to
`None` (SQL `NULL`) — and `None` is not `0`. -/
theorem c6_missing_stats_default_counterexample :
    recGet (mergeOne (channelInfoDict sampleChannel) [] (videoDict sampleVideo))
      "likes" = Value.vnull ∧
    Value.vnull ≠ Value.vi 0 := ⟨rfl, by decide⟩

/-- **C6 (amended).** An item present in the child listing but absent
from the fetched stats mapping is never dropped — the merge produces
exactly one record per listed item, including one for the missing
item — but that record's stats fields (`likes`, `comments`, `views`,
`tags`) come out as `None`/`NULL`, not as zero/empty values. -/
theorem c6_merge_keeps_unmatched_items (c : ChannelInfo) (stats : StatsMap)
    (videos : List Video) (v : Video) (hv : v ∈ videos)
    (hmiss : statsLookup stats (.vs v.video_id) = none) :
    (mergeRecords (channelInfoDict c) stats (videos.map videoDict)).length =
      videos.length ∧
    mergeOne (channelInfoDict c) stats (videoDict v) ∈
      mergeRecords (channelInfoDict c) stats (videos.map videoDict) ∧
    recGet (mergeOne (channelInfoDict c) stats (videoDict v)) "likes" = .vnull ∧
    recGet (mergeOne (channelInfoDict c) stats (videoDict v)) "comments" = .vnull ∧
    recGet (mergeOne (channelInfoDict c) stats (videoDict v)) "views" = .vnull ∧
    recGet (mergeOne (channelInfoDict c) stats (videoDict v)) "tags" = .vnull := by
  refine ⟨by simp [mergeRecords], ?_, ?_, ?_, ?_, ?_⟩
  · exact List.mem_map_of_mem _ (List.mem_map_of_mem _ hv)
  all_goals rw [mergeOne_missing_stats _ _ _ hmiss]
  all_goals rfl

/-- Witness for C6 (amended): a one-video listing with an empty stats
mapping. -/
theorem c6_merge_keeps_unmatched_items_witness :
    (sampleVideo ∈ [sampleVideo] ∧
     statsLookup [] (.vs sampleVideo.video_id) = none) ∧
    ((mergeRecords (channelInfoDict sampleChannel) []
        ([sampleVideo].map videoDict)).length = [sampleVideo].length ∧
     mergeOne (channelInfoDict sampleChannel) [] (videoDict sampleVideo) ∈
       mergeRecords (channelInfoDict sampleChannel) [] ([sampleVideo].map videoDict) ∧
     recGet (mergeOne (channelInfoDict sampleChannel) [] (videoDict sampleVideo))
       "likes" = .vnull ∧
     recGet (mergeOne (channelInfoDict sampleChannel) [] (videoDict sampleVideo))
       "comments" = .vnull ∧
     recGet (mergeOne (channelInfoDict sampleChannel) [] (videoDict sampleVideo))
       "views" = .vnull ∧
     recGet (mergeOne (channelInfoDict sampleChannel) [] (videoDict sampleVideo))
       "tags" = .vnull) := by
  exact ⟨⟨List.mem_singleton_self _, rfl⟩,
    c6_merge_keeps_unmatched_items sampleChannel [] [sampleVideo] sampleVideo
      (List.mem_singleton_self _) rfl⟩

/-- **C7.** Upsert idempotence and conflict semantics: re-running
`upsert` with an identical batch (one record per `(channel_id,
video_id)` key, as the table's primary key guarantees for data
produced by one task) yields the same stored table — hence the same
row count and field values — as running it once, at any fixed
`CURRENT_TIMESTAMP`; and on a key conflict the mutable fields
(`channel_title`, `title`, `views`, `likes`, `comments`) are
overwritten with the incoming (`EXCLUDED`) values while the
identifying key fields are left untouched. -/
theorem c7_upsert_idempotent (now : Value) (t rs : List DbRow)
    (hnd : (rs.map rowKey).Nodup) :
    upsertBatch now (upsertBatch now t rs) rs = upsertBatch now t rs ∧
    (upsertBatch now (upsertBatch now t rs) rs).length =
      (upsertBatch now t rs).length ∧
    (∀ r q, keyMatch r q →
      (updRow now r q).channel_id = q.channel_id ∧
      (updRow now r q).video_id = q.video_id ∧
      (updRow now r q).channel_title = r.channel_title ∧
      (updRow now r q).title = r.title ∧
      (updRow now r q).views = r.views ∧
      (updRow now r q).likes = r.likes ∧
      (updRow now r q).comments = r.comments) := by
  refine ⟨upsertBatch_idem now rs t hnd,
    by rw [upsertBatch_idem now rs t hnd], ?_⟩
  intro r q hm
  unfold updRow
  rw [if_pos hm]
  exact ⟨rfl, rfl, rfl, rfl, rfl, rfl, rfl⟩

/-- Witness for C7: upserting the one-record batch `[sampleRow]`
twice into an empty table equals upserting it once. -/
theorem c7_upsert_idempotent_witness :
    ([sampleRow].map rowKey).Nodup ∧
    (upsertBatch (.vs "now") (upsertBatch (.vs "now") [] [sampleRow])
        [sampleRow] = upsertBatch (.vs "now") [] [sampleRow] ∧
     (upsertBatch (.vs "now") (upsertBatch (.vs "now") [] [sampleRow])
        [sampleRow]).length = (upsertBatch (.vs "now") [] [sampleRow]).length ∧
     (∀ r q, keyMatch r q →
       (updRow (.vs "now") r q).channel_id = q.channel_id ∧
       (updRow (.vs "now") r q).video_id = q.video_id ∧
       (updRow (.vs "now") r q).channel_title = r.channel_title ∧
       (updRow (.vs "now") r q).title = r.title ∧
       (updRow (.vs "now") r q).views = r.views ∧
       (updRow (.vs "now") r q).likes = r.likes ∧
       (updRow (.vs "now") r q).comments = r.comments)) := by
  exact ⟨by decide, c7_upsert_idempotent (.vs "now") [] [sampleRow] (by decide)⟩

/-- Witness for C10: in `"chemo CT scan"` the specialised term
`"chemo"` and the abbreviation `"CT"` match while the generic term
`"xyz"` does not; the scorer returns score `0` with a non-empty
matched list. -/
theorem c10_tag_score_range_and_mixed_zero_witness :
    (foundSpecialised ("chemo CT scan".toList) [("chemo".toList)] = true ∧
     foundAbbreviation ("chemo CT scan".toList) [("CT".toList)] = true ∧
     foundGeneric ("chemo CT scan".toList) [("xyz".toList)] = false) ∧
    ((calculate_tag_score ("chemo CT scan".toList) [("xyz".toList)]
        [("chemo".toList)] [("CT".toList)]).1 = 0 ∧
     (calculate_tag_score ("chemo CT scan".toList) [("xyz".toList)]
        [("chemo".toList)] [("CT".toList)]).2 ≠ []) := by
  refine ⟨⟨by decide, by decide, by decide⟩, ?_⟩
  exact (c10_tag_score_range_and_mixed_zero ("chemo CT scan".toList)
    [("xyz".toList)] [("chemo".toList)] [("CT".toList)]).2
    (by decide) (by decide) (by decide)
